import Mathlib

/-!
Shallow embedding of the document-OCR backend service (apps/backend/main.py).

The service builds one process-global PaddleOCR PPStructureV3 engine at module
load time and exposes a root endpoint, a diagnostic endpoint running the OCR
pipeline on a fixed local sample image, and (per the request model OCRRequest)
an OCR endpoint taking a base64-encoded document.  The extraction engine itself
is an external library and is modelled as an opaque function parameter; the
orchestration code around it is translated faithfully, including the
first-page-only aggregation at line 45 and the unguarded artifact-save loop at
lines 47-50.
-/

namespace TidbOCR

/-- One element of the sequence returned by the extraction engine's predict
call: the page's canonical markdown text (the markdown_texts entry of the
page's markdown dict) and its annotated image, abstracted as bytes. -/
structure PageResult where
  markdown_texts : String
  img : List Nat
deriving DecidableEq, Repr

/-- The keyword options passed to the PPStructureV3 constructor at lines 14-22
of main.py. -/
structure PPStructureV3Config where
  use_doc_orientation_classify : Bool
  use_doc_unwarping : Bool
  use_textline_orientation : Bool
  use_chart_recognition : Bool
  text_recognition_model_name : String
  enable_mkldnn : Bool
  cpu_threads : Nat
deriving DecidableEq, Repr

/-- The module-level engine configuration, copied from lines 14-22 of
main.py. -/
def ocrConfig : PPStructureV3Config :=
  { use_doc_orientation_classify := false
    use_doc_unwarping := false
    use_textline_orientation := false
    use_chart_recognition := false
    text_recognition_model_name := "en_PP-OCRv4_mobile_rec"
    enable_mkldnn := true
    cpu_threads := 8 }

/-- Input accepted by the engine's predict call: a local file path or raw
document bytes. -/
inductive DocInput where
  | path (p : String)
  | bytes (b : List Nat)
deriving DecidableEq

/-- The extraction engine (PaddleOCR PPStructureV3) is an external collaborator
and is modelled as an opaque function from its startup configuration and a
document input to the finite sequence of page results. -/
abbrev Engine := PPStructureV3Config → DocInput → List PageResult

/-- The two artifact kinds written per page by the save loop at lines 48-50:
a markdown rendering (save_to_markdown) and an annotated image (save_to_img). -/
inductive ArtifactKind where
  | markdown
  | img
deriving DecidableEq, Repr

/-- One filesystem write performed by the save loop: which artifact kind, for
which page index, under which directory. -/
structure WriteEvent where
  kind : ArtifactKind
  page : Nat
  dir : String
deriving DecidableEq, Repr

/-- Errors a request can surface.  indexError models the IndexError raised by
result[0] on an empty page sequence, writeFailure models an uncaught exception
escaping the save loop, malformedPayload models a base64 decoding failure. -/
inductive OCRError where
  | indexError
  | writeFailure
  | malformedPayload
deriving DecidableEq, Repr

/-- The response envelope returned by the handlers: exactly a result field and
a timestamp field, as in the dict literal at lines 56-59 of main.py. -/
structure Envelope where
  result : String
  timestamp : String
deriving DecidableEq, Repr

/-- Wall-clock time as read by datetime.now, split into the six components the
format string of line 58 renders. -/
structure DateTime where
  year : Nat
  month : Nat
  day : Nat
  hour : Nat
  minute : Nat
  second : Nat
deriving DecidableEq, Repr

/-- Zero-padded two-digit decimal rendering of a field, as produced by the
strftime directives of line 58 on the in-range values datetime.now yields. -/
def fmt2 (n : Nat) : List Char :=
  [Nat.digitChar (n / 10 % 10), Nat.digitChar (n % 10)]

/-- Zero-padded four-digit decimal rendering of the year, as produced by the
strftime directive of line 58 on the years datetime.now yields. -/
def fmt4 (n : Nat) : List Char :=
  [Nat.digitChar (n / 1000 % 10), Nat.digitChar (n / 100 % 10),
   Nat.digitChar (n / 10 % 10), Nat.digitChar (n % 10)]

/-- Model of strftime on the fixed format string of line 58 of main.py. -/
def strftimeYmdHMS (t : DateTime) : String :=
  String.mk (fmt4 t.year ++ ['-'] ++ fmt2 t.month ++ ['-'] ++ fmt2 t.day
    ++ [' '] ++ fmt2 t.hour ++ [':'] ++ fmt2 t.minute ++ [':'] ++ fmt2 t.second)

/-- Recognizer for the timestamp shape the spec names: four digits, a dash,
two digits, a dash, two digits, a space, two digits, a colon, two digits, a
colon, two digits. -/
def isTimestampFormat (s : String) : Bool :=
  match s.data with
  | [y1, y2, y3, y4, c1, m1, m2, c2, d1, d2, c3, h1, h2, c4, n1, n2, c5, s1, s2] =>
    y1.isDigit && y2.isDigit && y3.isDigit && y4.isDigit && (c1 == '-') &&
    m1.isDigit && m2.isDigit && (c2 == '-') && d1.isDigit && d2.isDigit &&
    (c3 == ' ') && h1.isDigit && h2.isDigit && (c4 == ':') &&
    n1.isDigit && n2.isDigit && (c5 == ':') && s1.isDigit && s2.isDigit
  | _ => false

/-- Line 45 of main.py: markdown is taken from the first page result only.
The subscript result[0] raises IndexError on an empty sequence, modelled as
none. -/
def aggregate (result : List PageResult) : Option String :=
  (result.get? 0).map PageResult.markdown_texts

/-- Specification-side aggregator, following the spec's words in section 4.3:
walk the page sequence once, in order, and concatenate every page's canonical
textual rendering verbatim into one ordered output. -/
def aggregateSpec (pages : List PageResult) : String :=
  String.join (pages.map PageResult.markdown_texts)

/-- The two writes the loop body at lines 48-50 performs for the page at index
i, both under the save_path of "output". -/
def writesFor (i : Nat) : List WriteEvent :=
  [⟨ArtifactKind.markdown, i, "output"⟩, ⟨ArtifactKind.img, i, "output"⟩]

/-- The save loop at lines 47-50 of main.py, instrumented with an injected
write-failure oracle.  The loop body has no exception handling, so the first
failing save aborts the loop and the exception escapes; the error value
carries the writes completed before the failure. -/
def saveArtifacts (fails : Nat → ArtifactKind → Bool) :
    Nat → List PageResult → Except (List WriteEvent) (List WriteEvent)
  | _, [] => Except.ok []
  | i, _ :: rest =>
    if fails i ArtifactKind.markdown then Except.error []
    else if fails i ArtifactKind.img then
      Except.error [⟨ArtifactKind.markdown, i, "output"⟩]
    else
      match saveArtifacts fails (i + 1) rest with
      | Except.ok tr => Except.ok (writesFor i ++ tr)
      | Except.error tr => Except.error (writesFor i ++ tr)

/-- The full write trace of a fault-free save pass over a page list starting
at index i. -/
def fullTrace : Nat → List PageResult → List WriteEvent
  | _, [] => []
  | i, _ :: rest => writesFor i ++ fullTrace (i + 1) rest

/-- Lines 43-59 of main.py after the engine's predict call: take the first
page's markdown (line 45), run the save loop (lines 47-50), and on success
return the result-plus-timestamp envelope (lines 56-59).  Returns the
request's outcome together with the trace of artifact writes performed. -/
def processDocument (fails : Nat → ArtifactKind → Bool) (now : DateTime)
    (result : List PageResult) : Except OCRError Envelope × List WriteEvent :=
  match aggregate result with
  | none => (Except.error OCRError.indexError, [])
  | some markdown =>
    match saveArtifacts fails 0 result with
    | Except.error tr => (Except.error OCRError.writeFailure, tr)
    | Except.ok tr => (Except.ok ⟨markdown, strftimeYmdHMS now⟩, tr)

/-- The fixed local sample input of the diagnostic endpoint, line 44 of
main.py. -/
def test_pdf : String := "./test1.png"

/-- The body of the GET /test handler (lines 29-59 of main.py): run the shared
engine on the fixed sample path and process the resulting page sequence.  cfg
is the configuration of the process-global engine the handler reads. -/
def test (engine : Engine) (cfg : PPStructureV3Config)
    (fails : Nat → ArtifactKind → Bool) (now : DateTime) :
    Except OCRError Envelope × List WriteEvent :=
  processDocument fails now (engine cfg (DocInput.path test_pdf))

/-- The request model declared at lines 9-10 of main.py: a single field
carrying the base64-encoded document. -/
structure OCRRequest where
  file : String
deriving DecidableEq, Repr

/-- Modelled from the spec: value of one character of the standard base64
alphabet.  The primary OCR endpoint's payload decoder is absent from src
(only the OCRRequest declaration at lines 9-10 exists), so the decoder is
modelled from the spec's Payload Decoder contract in section 4.1. -/
def b64CharVal (c : Char) : Option Nat :=
  if 65 ≤ c.toNat ∧ c.toNat ≤ 90 then some (c.toNat - 65)
  else if 97 ≤ c.toNat ∧ c.toNat ≤ 122 then some (c.toNat - 97 + 26)
  else if 48 ≤ c.toNat ∧ c.toNat ≤ 57 then some (c.toNat - 48 + 52)
  else if c = '+' then some 62
  else if c = '/' then some 63
  else none

/-- Modelled from the spec: decode one four-character base64 group, honouring
one or two trailing padding characters, into one to three bytes. -/
def b64Group : List Char → Option (List Nat)
  | [a, b, '=', '='] => do
    let va ← b64CharVal a
    let vb ← b64CharVal b
    some [(va * 4 + vb / 16) % 256]
  | [a, b, c, '='] => do
    let va ← b64CharVal a
    let vb ← b64CharVal b
    let vc ← b64CharVal c
    some [(va * 4 + vb / 16) % 256, (vb % 16 * 16 + vc / 4) % 256]
  | [a, b, c, d] => do
    let va ← b64CharVal a
    let vb ← b64CharVal b
    let vc ← b64CharVal c
    let vd ← b64CharVal d
    some [(va * 4 + vb / 16) % 256, (vb % 16 * 16 + vc / 4) % 256,
      (vc % 4 * 64 + vd) % 256]
  | _ => none

/-- Modelled from the spec: base64 decoding of a character stream in groups of
four; input whose length is not a multiple of four is truncated and therefore
malformed. -/
def b64decodeAux : List Char → Option (List Nat)
  | [] => some []
  | a :: b :: c :: d :: rest => do
    let g ← b64Group [a, b, c, d]
    let r ← b64decodeAux rest
    some (g ++ r)
  | _ => none

/-- Modelled from the spec: the text-safe byte decoding of section 4.1; none
models the MalformedPayload failure mode. -/
def b64decode (s : String) : Option (List Nat) :=
  b64decodeAux s.data

/-- Modelled from the spec: the primary OCR endpoint, absent from src.  It
decodes the request's base64 payload; on failure it signals MalformedPayload
without invoking the engine, otherwise it runs the same pipeline as the
diagnostic handler on the decoded bytes.  The boolean records whether the
extraction engine was invoked. -/
def primaryHandler (engine : Engine) (cfg : PPStructureV3Config)
    (fails : Nat → ArtifactKind → Bool) (now : DateTime) (req : OCRRequest) :
    (Except OCRError Envelope × List WriteEvent) × Bool :=
  match b64decode req.file with
  | none => ((Except.error OCRError.malformedPayload, []), false)
  | some bs => (processDocument fails now (engine cfg (DocInput.bytes bs)), true)

/-- The three routes the FastAPI app serves: GET / (line 24), GET /test
(line 29), and the OCR route taking an OCRRequest body. -/
inductive Request where
  | rootReq
  | testReq
  | ocrReq (r : OCRRequest)

/-- A route response: the bare string of the root handler or the envelope
outcome of a pipeline handler. -/
inductive Response where
  | text (s : String)
  | envelope (e : Except OCRError Envelope)

/-- Process-global state: the configuration of the shared engine built at
module load (lines 14-22) and how many times an engine was constructed. -/
structure ProcessState where
  engineConfig : PPStructureV3Config
  engineInits : Nat
deriving DecidableEq, Repr

/-- Module load of main.py: the single PPStructureV3 construction with the
fixed options of lines 14-22. -/
def startup : ProcessState :=
  { engineConfig := ocrConfig, engineInits := 1 }

/-- Dispatch one request against the process state.  Every handler reads the
shared engine's configuration from the state and none of them writes the
state. -/
def serve (engine : Engine) (fails : Nat → ArtifactKind → Bool)
    (now : DateTime) (st : ProcessState) : Request → ProcessState × Response
  | Request.rootReq => (st, Response.text "main chicka")
  | Request.testReq =>
    (st, Response.envelope (test engine st.engineConfig fails now).1)
  | Request.ocrReq r =>
    (st, Response.envelope (primaryHandler engine st.engineConfig fails now r).1.1)

/-- Fold a whole request history through serve, returning the final process
state. -/
def serveAll (engine : Engine) (fails : Nat → ArtifactKind → Bool)
    (now : DateTime) (st : ProcessState) (reqs : List Request) : ProcessState :=
  reqs.foldl (fun s r => (serve engine fails now s r).1) st

/-- A decimal digit character produced for the low decimal digit of a number
is a digit in the ASCII sense. -/
lemma digitChar_mod_isDigit (n : Nat) : (Nat.digitChar (n % 10)).isDigit = true := by
  have h : n % 10 < 10 := by omega
  revert h
  generalize n % 10 = k
  intro h
  interval_cases k <;> decide

/-- The modelled strftime output always matches the timestamp shape the spec
names. -/
lemma strftime_isTimestampFormat (t : DateTime) :
    isTimestampFormat (strftimeYmdHMS t) = true := by
  simp [strftimeYmdHMS, fmt4, fmt2, isTimestampFormat, digitChar_mod_isDigit]

/-- With no injected failure, the save loop completes and its trace is the
full trace of the page list. -/
lemma saveArtifacts_ok (fails : Nat → ArtifactKind → Bool)
    (h : ∀ j kind, fails j kind = false) :
    ∀ (pages : List PageResult) (i : Nat),
      saveArtifacts fails i pages = Except.ok (fullTrace i pages) := by
  intro pages
  induction pages with
  | nil => intro i; rfl
  | cons p rest ih =>
    intro i
    simp [saveArtifacts, h, fullTrace, ih (i + 1)]

/-- Every event of a full trace targets the "output" directory and carries a
page index within the traversed range. -/
lemma mem_fullTrace (pages : List PageResult) :
    ∀ (i : Nat) (e : WriteEvent), e ∈ fullTrace i pages →
      e.dir = "output" ∧ i ≤ e.page ∧ e.page < i + pages.length := by
  induction pages with
  | nil => intro i e he; simp [fullTrace] at he
  | cons p rest ih =>
    intro i e he
    simp only [fullTrace, writesFor, List.mem_append, List.mem_cons,
      List.mem_singleton, List.not_mem_nil, or_false] at he
    rcases he with (rfl | rfl) | he
    · exact ⟨rfl, le_refl i, by simp⟩
    · exact ⟨rfl, le_refl i, by simp⟩
    · have := ih (i + 1) e he
      refine ⟨this.1, by omega, by simp; omega⟩

/-- Each page index of the traversed range contributes both artifact kinds to
the full trace. -/
lemma fullTrace_mem_of_lt (pages : List PageResult) :
    ∀ (i k : Nat) (kind : ArtifactKind), k < pages.length →
      (⟨kind, i + k, "output"⟩ : WriteEvent) ∈ fullTrace i pages := by
  induction pages with
  | nil => intro i k kind hk; simp at hk
  | cons p rest ih =>
    intro i k kind hk
    cases k with
    | zero =>
      simp only [fullTrace, writesFor, List.mem_append]
      left
      cases kind <;> simp
    | succ k =>
      have hk' : k < rest.length := by simpa using hk
      have := ih (i + 1) k kind hk'
      simp only [fullTrace, List.mem_append]
      right
      have harith : i + (k + 1) = (i + 1) + k := by omega
      rw [harith]
      exact this

/-- Page indices are nondecreasing along a full trace. -/
lemma fullTrace_pairwise (pages : List PageResult) :
    ∀ i : Nat, List.Pairwise (fun a b => a.page ≤ b.page) (fullTrace i pages) := by
  induction pages with
  | nil => intro i; simp [fullTrace]
  | cons p rest ih =>
    intro i
    simp only [fullTrace]
    refine List.pairwise_append.mpr ⟨?_, ih (i + 1), ?_⟩
    · simp [writesFor]
    · intro a ha b hb
      have hb' := mem_fullTrace rest (i + 1) b hb
      simp only [writesFor, List.mem_cons, List.mem_singleton,
        List.not_mem_nil, or_false] at ha
      rcases ha with rfl | rfl <;> simp <;> omega

/-- A first injected failure at page k (first artifact of that page) stops the
save loop with exactly the writes of the pages before k performed. -/
lemma saveArtifacts_err (fails : Nat → ArtifactKind → Bool) (k : Nat)
    (hf : fails k ArtifactKind.markdown = true)
    (hprev : ∀ j kind, j < k → fails j kind = false) :
    ∀ (pages : List PageResult) (i : Nat), i ≤ k → k < i + pages.length →
      saveArtifacts fails i pages =
        Except.error (fullTrace i (pages.take (k - i))) := by
  intro pages
  induction pages with
  | nil => intro i h1 h2; simp at h2; omega
  | cons p rest ih =>
    intro i h1 h2
    by_cases hik : i = k
    · subst hik
      simp [saveArtifacts, hf, fullTrace]
    · have hlt : i < k := lt_of_le_of_ne h1 hik
      have hm : fails i ArtifactKind.markdown = false := hprev i _ hlt
      have hg : fails i ArtifactKind.img = false := hprev i _ hlt
      have ih' := ih (i + 1) (by omega) (by simp at h2 ⊢; omega)
      simp only [saveArtifacts, hm, hg, Bool.false_eq_true, if_false, ih']
      have harith : k - i = (k - (i + 1)) + 1 := by omega
      rw [harith, List.take_succ_cons]
      simp [fullTrace]

/-- Concrete first page used by counterexamples and witnesses. -/
def pA : PageResult := ⟨"Page One Text", [1]⟩

/-- Concrete second page used by counterexamples and witnesses. -/
def pB : PageResult := ⟨"Page Two Text", [2]⟩

/-- Concrete completion time used by counterexamples and witnesses. -/
def now0 : DateTime := ⟨2026, 10, 12, 3, 4, 5⟩

/-- C1 counterexample: on a two-page sequence, the aggregation of line 45
returns only the first page's rendering, which differs from the ordered
concatenation of both pages that the spec promises. -/
theorem c1_cex_aggregate_drops_second_page :
    aggregate [pA, pB] = some "Page One Text" ∧
    aggregateSpec [pA, pB] = "Page One TextPage Two Text" ∧
    aggregate [pA, pB] ≠ some (aggregateSpec [pA, pB]) := by
  refine ⟨rfl, by decide, by decide⟩

/-- C1 (amended): the aggregation step returns exactly the first page's
canonical textual rendering, verbatim, for every nonempty page sequence
regardless of the later pages; an empty sequence yields no result (an index
error) rather than an empty aggregation. -/
theorem c1_aggregate_first_page_verbatim :
    (∀ (p : PageResult) (rest : List PageResult),
      aggregate (p :: rest) = some p.markdown_texts) ∧
    aggregate ([] : List PageResult) = none := by
  exact ⟨fun p rest => rfl, rfl⟩

/-- C3 counterexample: an empty page sequence makes the subscript of line 45
raise, so the request fails with an index error instead of producing an empty
aggregated result. -/
theorem c3_cex_empty_sequence_raises :
    (processDocument (fun _ _ => false) now0 []).1 =
      Except.error OCRError.indexError := rfl

/-- C3 (amended): on an empty page sequence the pipeline fails with an index
error before any artifact write, for every failure oracle and completion
time; no empty aggregated result is produced. -/
theorem c3_empty_sequence_is_error (fails : Nat → ArtifactKind → Bool)
    (now : DateTime) :
    processDocument fails now [] = (Except.error OCRError.indexError, []) := rfl

/-- C8: the aggregated result is a deterministic function of the page
sequence alone: two successful runs of the pipeline over the same page
sequence, under arbitrary and possibly different failure oracles and clock
readings, carry the same aggregated result, namely the value of aggregate on
that sequence. -/
theorem c8_aggregation_deterministic (pages : List PageResult)
    (fails1 fails2 : Nat → ArtifactKind → Bool) (now1 now2 : DateTime)
    (e1 e2 : Envelope)
    (h1 : (processDocument fails1 now1 pages).1 = Except.ok e1)
    (h2 : (processDocument fails2 now2 pages).1 = Except.ok e2) :
    e1.result = e2.result ∧ aggregate pages = some e1.result := by
  cases hagg : aggregate pages with
  | none =>
    rw [processDocument, hagg] at h1
    simp at h1
  | some md =>
    rw [processDocument, hagg] at h1
    rw [processDocument, hagg] at h2
    cases hs1 : saveArtifacts fails1 0 pages <;> rw [hs1] at h1 <;> simp at h1
    cases hs2 : saveArtifacts fails2 0 pages <;> rw [hs2] at h2 <;> simp at h2
    rw [← h1, ← h2]
    exact ⟨rfl, rfl⟩

/-- C8 witness: the determinism theorem applied to a concrete one-page run
under two different failure oracles and clocks. -/
theorem c8_witness :
    (Envelope.mk "Page One Text" (strftimeYmdHMS now0)).result =
      (Envelope.mk "Page One Text" (strftimeYmdHMS ⟨2025, 1, 2, 10, 20, 30⟩)).result ∧
    aggregate [pA] = some (Envelope.mk "Page One Text" (strftimeYmdHMS now0)).result :=
  c8_aggregation_deterministic [pA] (fun _ _ => false) (fun i _ => decide (1 ≤ i))
    now0 ⟨2025, 1, 2, 10, 20, 30⟩ _ _ (by rfl) (by rfl)

/-- C10: the root endpoint of line 24 is a constant operation: whatever the
process state, the engine, or the ambient clock, it returns the string
"main chicka" and leaves the state untouched. -/
theorem c10_root_constant (engine : Engine) (fails : Nat → ArtifactKind → Bool)
    (now : DateTime) (st : ProcessState) :
    serve engine fails now st Request.rootReq = (st, Response.text "main chicka") := rfl

/-- C2 counterexample: with a two-page engine output and an injected failure
on page 0's first artifact write, the unguarded loop of lines 47-50 performs
no further write (page 1 is never persisted) and the exception escapes, so
the request fails with a write error instead of succeeding. -/
theorem c2_cex_write_failure_fatal :
    test (fun _ _ => [pA, pB]) ocrConfig
        (fun i kind => decide (i = 0 ∧ kind = ArtifactKind.markdown)) now0 =
      (Except.error OCRError.writeFailure, []) := rfl

/-- C2 (amended): a failure while writing page k's first artifact aborts the
save loop: only the artifacts of pages before k are persisted, nothing of
pages k..N is written, and the request fails with the write error surfaced to
the caller rather than being swallowed. -/
theorem c2_write_failure_aborts_request (pages : List PageResult)
    (fails : Nat → ArtifactKind → Bool) (now : DateTime) (k : Nat)
    (hk : k < pages.length)
    (hf : fails k ArtifactKind.markdown = true)
    (hprev : ∀ j kind, j < k → fails j kind = false) :
    (processDocument fails now pages).1 = Except.error OCRError.writeFailure ∧
    (processDocument fails now pages).2 = fullTrace 0 (pages.take k) ∧
    ∀ e ∈ (processDocument fails now pages).2, e.page < k := by
  obtain ⟨p, rest, rfl⟩ : ∃ p rest, pages = p :: rest := by
    cases pages with
    | nil => simp at hk
    | cons p rest => exact ⟨p, rest, rfl⟩
  have hsave := saveArtifacts_err fails k hf hprev (p :: rest) 0 (Nat.zero_le k)
    (by simpa using hk)
  simp only [Nat.sub_zero] at hsave
  have hrun : processDocument fails now (p :: rest) =
      (Except.error OCRError.writeFailure, fullTrace 0 ((p :: rest).take k)) := by
    rw [processDocument]
    simp [aggregate, hsave]
  refine ⟨by rw [hrun], by rw [hrun], ?_⟩
  intro e he
  rw [hrun] at he
  have hmem := mem_fullTrace ((p :: rest).take k) 0 e he
  have hlen : ((p :: rest).take k).length ≤ k := by
    simp [List.length_take]
  omega

/-- C2 witness: the abort theorem applied to a three-page run whose second
page's markdown write fails. -/
theorem c2_witness :
    (processDocument (fun i _ => decide (i = 1)) now0 [pA, pB, pA]).1 =
      Except.error OCRError.writeFailure ∧
    (processDocument (fun i _ => decide (i = 1)) now0 [pA, pB, pA]).2 =
      fullTrace 0 ([pA, pB, pA].take 1) ∧
    ∀ e ∈ (processDocument (fun i _ => decide (i = 1)) now0 [pA, pB, pA]).2,
      e.page < 1 :=
  c2_write_failure_aborts_request [pA, pB, pA] (fun i _ => decide (i = 1)) now0 1
    (by decide) (by decide) (fun j kind hj => by simp; omega)

/-- C4: a request whose payload is not valid base64 is rejected with the
malformed-payload error, no artifact is written, and the extraction engine is
never invoked on it. -/
theorem c4_malformed_payload_rejected (engine : Engine)
    (cfg : PPStructureV3Config) (fails : Nat → ArtifactKind → Bool)
    (now : DateTime) (req : OCRRequest)
    (h : b64decode req.file = none) :
    primaryHandler engine cfg fails now req =
      ((Except.error OCRError.malformedPayload, []), false) := by
  rw [primaryHandler, h]

/-- C4 witness: the rejection theorem applied to a concrete payload holding
characters outside the base64 alphabet. -/
theorem c4_witness :
    b64decode "??__" = none ∧
    primaryHandler (fun _ _ => [pA]) ocrConfig (fun _ _ => false) now0 ⟨"??__"⟩ =
      ((Except.error OCRError.malformedPayload, []), false) :=
  ⟨by decide,
    c4_malformed_payload_rejected (fun _ _ => [pA]) ocrConfig (fun _ _ => false)
      now0 ⟨"??__"⟩ (by decide)⟩

/-- C5: every successful run of the pipeline returns an envelope made of
exactly the aggregated result and the completion time rendered by the fixed
format string, and that timestamp matches the YYYY-MM-DD HH:MM:SS shape. -/
theorem c5_envelope_result_and_timestamp (fails : Nat → ArtifactKind → Bool)
    (now : DateTime) (pages : List PageResult) (e : Envelope)
    (h : (processDocument fails now pages).1 = Except.ok e) :
    (∃ md, aggregate pages = some md ∧ e = Envelope.mk md (strftimeYmdHMS now)) ∧
    isTimestampFormat e.timestamp = true := by
  cases hagg : aggregate pages with
  | none =>
    rw [processDocument, hagg] at h
    simp at h
  | some md =>
    rw [processDocument, hagg] at h
    cases hs : saveArtifacts fails 0 pages <;> rw [hs] at h <;> simp at h
    refine ⟨⟨md, rfl, h.symm⟩, ?_⟩
    rw [← h]
    exact strftime_isTimestampFormat now

/-- C5 witness: the envelope theorem applied to a concrete successful
one-page run. -/
theorem c5_witness :
    (∃ md, aggregate [pA] = some md ∧
      (Envelope.mk "Page One Text" "2026-10-12 03:04:05") =
        Envelope.mk md (strftimeYmdHMS now0)) ∧
    isTimestampFormat
      (Envelope.mk "Page One Text" "2026-10-12 03:04:05").timestamp = true :=
  c5_envelope_result_and_timestamp (fun _ _ => false) now0 [pA]
    (Envelope.mk "Page One Text" "2026-10-12 03:04:05") (by rfl)

/-- C6: the shared extraction engine is constructed exactly once, at module
load, with the fixed options of lines 14-22; no request handler ever writes
the process state, so every request in any request history is served against
that same configuration. -/
theorem c6_engine_shared_and_fixed (engine : Engine)
    (fails : Nat → ArtifactKind → Bool) (now : DateTime) :
    (∀ st r, (serve engine fails now st r).1 = st) ∧
    (∀ reqs, serveAll engine fails now startup reqs = startup) ∧
    startup.engineInits = 1 ∧
    startup.engineConfig = ocrConfig ∧
    ocrConfig = ⟨false, false, false, false, "en_PP-OCRv4_mobile_rec", true, 8⟩ := by
  have hstep : ∀ st r, (serve engine fails now st r).1 = st := by
    intro st r
    cases r <;> rfl
  refine ⟨hstep, ?_, rfl, rfl, rfl⟩
  intro reqs
  induction reqs with
  | nil => rfl
  | cons r rs ih =>
    simp only [serveAll, List.foldl_cons] at ih ⊢
    rw [hstep startup r]
    exact ih

/-- C7: the diagnostic route takes no request data beyond the bare route, runs
the pipeline on the fixed local sample path "./test1.png" through the shared
engine, and its response is an envelope outcome of the same shape as the
primary OCR route's. -/
theorem c7_diagnostic_fixed_sample (engine : Engine)
    (fails : Nat → ArtifactKind → Bool) (now : DateTime) (st : ProcessState) :
    (serve engine fails now st Request.testReq).2 =
      Response.envelope
        (processDocument fails now
          (engine st.engineConfig (DocInput.path "./test1.png"))).1 ∧
    test_pdf = "./test1.png" ∧
    (∃ ex, (serve engine fails now st Request.testReq).2 = Response.envelope ex) ∧
    ∀ r, ∃ ex, (serve engine fails now st (Request.ocrReq r)).2 =
      Response.envelope ex := by
  exact ⟨rfl, rfl, ⟨_, rfl⟩, fun r => ⟨_, rfl⟩⟩

/-- C9: in a fault-free run of the diagnostic handler, every page returned by
the engine, first page or not, gets both its markdown artifact and its image
artifact written under the directory "output", and the write trace is the
full page-ordered trace with nondecreasing page indices. -/
theorem c9_all_pages_persisted (engine : Engine)
    (fails : Nat → ArtifactKind → Bool) (now : DateTime)
    (h : ∀ j kind, fails j kind = false) :
    (test engine ocrConfig fails now).2 =
      fullTrace 0 (engine ocrConfig (DocInput.path test_pdf)) ∧
    (∀ k, k < (engine ocrConfig (DocInput.path test_pdf)).length →
      (⟨ArtifactKind.markdown, k, "output"⟩ : WriteEvent) ∈
        (test engine ocrConfig fails now).2 ∧
      (⟨ArtifactKind.img, k, "output"⟩ : WriteEvent) ∈
        (test engine ocrConfig fails now).2) ∧
    (∀ e ∈ (test engine ocrConfig fails now).2, e.dir = "output") ∧
    List.Pairwise (fun a b => a.page ≤ b.page) (test engine ocrConfig fails now).2 := by
  have htr : (test engine ocrConfig fails now).2 =
      fullTrace 0 (engine ocrConfig (DocInput.path test_pdf)) := by
    rw [test]
    cases hpg : engine ocrConfig (DocInput.path test_pdf) with
    | nil => rfl
    | cons p rest =>
      rw [processDocument]
      simp [aggregate, saveArtifacts_ok fails h (p :: rest) 0]
  refine ⟨htr, ?_, ?_, ?_⟩
  · intro k hk
    rw [htr]
    constructor
    · have := fullTrace_mem_of_lt _ 0 k ArtifactKind.markdown hk
      simpa using this
    · have := fullTrace_mem_of_lt _ 0 k ArtifactKind.img hk
      simpa using this
  · intro e he
    rw [htr] at he
    exact (mem_fullTrace _ 0 e he).1
  · rw [htr]
    exact fullTrace_pairwise _ 0

/-- C9 witness: the persistence theorem applied to a concrete two-page engine
with no injected failure. -/
theorem c9_witness :
    (test (fun _ _ => [pA, pB]) ocrConfig (fun _ _ => false) now0).2 =
      fullTrace 0 ((fun (_ : PPStructureV3Config) (_ : DocInput) => [pA, pB])
        ocrConfig (DocInput.path test_pdf)) :=
  (c9_all_pages_persisted (fun _ _ => [pA, pB]) (fun _ _ => false) now0
    (fun _ _ => rfl)).1

end TidbOCR
